import Mathlib

/-!
Verification of the semantic question-answer cache with generation fallback
(`IntelligentQAService` and its collaborators `GeminiService`, `QdrantService`,
`EmbeddingService`).

The Python services are embedded shallowly:

* `normalize_question` embeds `IntelligentQAService._normalize_question`
  (strip, collapse whitespace runs with `re.sub(r"\s+", " ", ...)`, append a
  language-appropriate question mark when terminal punctuation is missing).
* `gemini_answer_question` embeds `GeminiService.answer_question` together
  with its helpers `_process_response`, `_is_response_relevant` and
  `_extract_confidence`; the external `generate_content` provider is a
  parameter (`GeminiState.provider`), indexed by the number of calls made so
  far, so retry behaviour is observable.
* `search_similar_questions` embeds `QdrantService.search_similar_questions`;
  the hits delivered by the Qdrant client are a parameter (`SearchEnv.hits`).
* `process_question` embeds the `HEAD`-side pipeline of
  `IntelligentQAService.process_question` (the variant the specification's
  claims cite by line number), including the cache-hit lookup, the web-context
  step, the generation call with its salvage `except` branch, persistence via
  `_store_new_qa_pair` and variant indexing via `_generate_and_store_variants`.

Machine floats are modelled as rationals (`ℚ`); similarity scores and
confidences are only compared and added, never rounded. Python calls that can
raise are modelled with the `Call` type; a `try`/`except Exception` block
corresponds to a `match` on it.

Two collaborators referenced by the service are missing from the source tree
(only their call sites exist) and are modelled from the specification, as
flagged on their definitions: the durable Q&A store repository
(`qa_pair_repository`) and the context-enrichment fetch
(`web_scraping_service.get_content_for_context`).
-/

/-- Whitespace test matching Python's `str.strip()` and the regex class `\s`
(Unicode whitespace). Only the property that the normalizer's strip and
collapse steps agree on the same class matters for the proofs. -/
def pyIsSpace (c : Char) : Bool :=
  c = ' ' ∨ c = '\t' ∨ c = '\n' ∨ c = '\r' ∨ c.toNat = 11 ∨ c.toNat = 12 ∨
  (28 ≤ c.toNat ∧ c.toNat ≤ 31) ∨ c.toNat = 133 ∨ c.toNat = 160 ∨ c.toNat = 5760 ∨
  (8192 ≤ c.toNat ∧ c.toNat ≤ 8202) ∨ c.toNat = 8232 ∨ c.toNat = 8233 ∨
  c.toNat = 8239 ∨ c.toNat = 8287 ∨ c.toNat = 12288

/-- Removal of leading whitespace followed by removal of trailing whitespace:
Python's `str.strip()`. -/
def pyStrip (l : List Char) : List Char :=
  (((l.dropWhile pyIsSpace).reverse.dropWhile pyIsSpace).reverse)

/-- Replacement of every maximal whitespace run by a single space:
`re.sub(r"\s+", " ", ...)`. A run is emitted as one `' '` when its last
character is reached. -/
def collapseWs : List Char → List Char
  | [] => []
  | [c] => if pyIsSpace c then [' '] else [c]
  | c :: d :: rest =>
    if pyIsSpace c then
      if pyIsSpace d then collapseWs (d :: rest)
      else ' ' :: collapseWs (d :: rest)
    else c :: collapseWs (d :: rest)

/-- Arabic letters probed by the normalizer's
`any(ch in normalized for ch in "أبتثجحخدذرزسشصضطظعغفقكلمنهوي")`. -/
def arabicLetters : List Char := "أبتثجحخدذرزسشصضطظعغفقكلمنهوي".data

/-- Test for `normalized.endswith(("?", "؟", "."))`. -/
def endsPunct (l : List Char) : Bool :=
  match l.getLast? with
  | some c => c = '?' ∨ c = '؟' ∨ c = '.'
  | none => false

/-- Test for the light Arabic-detection heuristic inside the normalizer. -/
def hasArabicChar (l : List Char) : Bool :=
  l.any (fun c => arabicLetters.contains c)

/-- Character-list version of `IntelligentQAService._normalize_question`:
strip, collapse whitespace runs, and append `؟` or `?` when terminal
punctuation is missing. The body of the Python function cannot raise, so its
enclosing `try`/`except` is dead. -/
def normalizeChars (l : List Char) : List Char :=
  let n := collapseWs (pyStrip l)
  if endsPunct n then n
  else n ++ [if hasArabicChar n then '؟' else '?']

/-- Embedding of `IntelligentQAService._normalize_question`. -/
def normalize_question (q : String) : String :=
  String.mk (normalizeChars q.data)

-- Thresholds set in `IntelligentQAService.__init__` and the salvage literal
-- used in the generation-failure fallback (line 337 of the service).

/-- Value of `self.semantic_search_threshold` (`0.85`, written with `mkRat` so
that comparisons reduce). -/
def semantic_search_threshold : ℚ := mkRat 85 100

/-- Value of `self.quality_threshold` (`0.95`). -/
def quality_threshold : ℚ := mkRat 95 100

/-- Literal `0.3` used in `process_question`'s generation-failure fallback. -/
def salvage_threshold : ℚ := mkRat 3 10

-- GeminiService (`gemini_service.py`).

/-- Word character for the regex class `\w` as used by
`GeminiService._is_response_relevant` (`re.findall(r'\w+', ...)`). ASCII
alphanumerics, underscore, and the Arabic letter block suffice for the texts
the service handles. -/
def isWordChar (c : Char) : Bool :=
  c.isAlphanum || c = '_' || (1569 ≤ c.toNat && c.toNat ≤ 1610)

/-- Accumulator-based extraction of maximal `\w+` runs (`re.findall(r'\w+', s)`).
The accumulator holds the current word reversed. -/
def pyWordsAux : List Char → List Char → List (List Char)
  | [], acc => if acc.isEmpty then [] else [acc.reverse]
  | c :: rest, acc =>
    if isWordChar c then pyWordsAux rest (c :: acc)
    else if acc.isEmpty then pyWordsAux rest []
    else acc.reverse :: pyWordsAux rest []

/-- All maximal `\w+` runs of a character list. -/
def pyWords (l : List Char) : List (List Char) := pyWordsAux l []

/-- Python `str.lower()` (ASCII case folding; the Arabic letters involved have
no case). -/
def lowerChars (l : List Char) : List Char := l.map Char.toLower

/-- Test whether the needle is an initial segment of the haystack. -/
def isSubAt : List Char → List Char → Bool
  | [], _ => true
  | _ :: _, [] => false
  | a :: as, b :: bs => a = b && isSubAt as bs

/-- Python's `needle in hay` substring containment. -/
def containsSub (needle hay : List Char) : Bool :=
  match hay with
  | [] => needle.isEmpty
  | _ :: t => isSubAt needle hay || containsSub needle t

/-- Embedding of `GeminiService._is_response_relevant`: the deduplicated
lower-cased word sets of question and response must share at least
`min(2, len(question_words) // 2)` words. -/
def is_response_relevant (response question : List Char) : Bool :=
  let questionWords := (pyWords (lowerChars question)).dedup
  let responseWords := (pyWords (lowerChars response)).dedup
  let common := questionWords.filter (fun w => responseWords.contains w)
  min 2 (questionWords.length / 2) ≤ common.length

/-- Backquote character, written by code point to keep it out of the source
text. -/
def backquote : Char := Char.ofNat 96

/-- One pass of `re.sub(r'```[\w]*\n', '', s)`: at each position a fence head
(three backquotes, a `\w*` run, then a newline) is removed, otherwise one
character is emitted. The fuel argument (instantiated with the list length)
only drives termination; every step consumes at least one character. -/
def removeFenceAux : Nat → List Char → List Char
  | 0, l => l
  | _ + 1, [] => []
  | fuel + 1, c :: rest =>
    if c = backquote then
      match rest with
      | d :: e :: tail =>
        if d = backquote ∧ e = backquote then
          match tail.dropWhile isWordChar with
          | '\n' :: tl => removeFenceAux fuel tl
          | _ => c :: removeFenceAux fuel rest
        else c :: removeFenceAux fuel rest
      | _ => c :: removeFenceAux fuel rest
    else c :: removeFenceAux fuel rest

/-- Embedding of `re.sub(r'```', '', s)`: every occurrence of three
consecutive backquotes is removed. -/
def removeTicks : List Char → List Char
  | a :: b :: c :: rest =>
    if a = backquote ∧ b = backquote ∧ c = backquote then removeTicks rest
    else a :: removeTicks (b :: c :: rest)
  | l => l

/-- Embedding of `GeminiService._process_response`: reject empty or too-short
responses, strip, remove markdown fences, and reject irrelevant responses. -/
def process_response (response_text question : List Char) : Option (List Char) :=
  if response_text.isEmpty || (pyStrip response_text).length < 10 then none
  else
    let stripped := pyStrip response_text
    let cleaned := removeTicks (removeFenceAux stripped.length stripped)
    if is_response_relevant cleaned question then some cleaned else none

/-- Uncertainty markers probed by `GeminiService._extract_confidence`. -/
def uncertainty_indicators : List (List Char) :=
  ["I\x27m not sure".data, "I don\x27t know".data, "might be".data, "could be".data,
   "لست متأكداً".data, "لا أعرف".data, "قد يكون".data, "يمكن أن يكون".data]

/-- Python truthiness of the optional context string. -/
def truthyCtx : Option (List Char) → Bool
  | none => false
  | some c => !c.isEmpty

/-- Embedding of `GeminiService._extract_confidence`: base 0.8, +0.1 with
context, +0.05 for long responses, −0.1 when an uncertainty marker occurs
(the Python loop breaks after the first match), clamped to [0, 1]. -/
def extract_confidence (response : List Char) (context : Option (List Char)) : ℚ :=
  let base : ℚ := mkRat 8 10
  let base := if truthyCtx context then base + mkRat 1 10 else base
  let base := if 200 < response.length then base + mkRat 1 20 else base
  let base :=
    if uncertainty_indicators.any
        (fun ind => containsSub (lowerChars ind) (lowerChars response)) then
      base - mkRat 1 10
    else base
  min 1 (max 0 base)

/-- Outcome of one `generate_content` call on the generative provider. -/
inductive ProviderResult where
  | raised (kind : String)
  | empty
  | text (s : String)
deriving DecidableEq

/-- State of `GeminiService` as seen by `answer_question`: whether
`is_connected()` holds and what the provider returns on the n-th
`generate_content` call of the request. -/
structure GeminiState where
  connected : Bool
  provider : Nat → ProviderResult

/-- Answer dictionary produced by `GeminiService.answer_question` (only the
fields the pipeline reads). -/
structure GeminiResp where
  answer : String
  confidence : ℚ
deriving DecidableEq

/-- Embedding of `GeminiService.answer_question`. The second component counts
`generate_content` calls. The body makes exactly one provider call, has no
retry loop and no backoff, and its `except Exception` handler turns every
provider exception — transient, rate-limited or unauthorized alike — into a
`None` return, so the function itself never raises. -/
def gemini_answer_question (st : GeminiState) (question : String)
    (context : Option String) : Option GeminiResp × Nat :=
  if st.connected = false then (none, 0)
  else
    match st.provider 0 with
    | .raised _ => (none, 1)
    | .empty => (none, 1)
    | .text t =>
      if t.isEmpty then (none, 1)
      else
        match process_response t.data question.data with
        | none => (none, 1)
        | some cleaned =>
          (some { answer := String.mk cleaned,
                  confidence := extract_confidence cleaned (context.map String.data) }, 1)

-- QdrantService (`qdrant_service.py`).

/-- One search hit as the Qdrant client returns it (already turned into the
result dictionary of `search_similar_questions`). -/
structure Hit where
  qa_id : String
  question : String
  answer : Option String
  similarity_score : ℚ
deriving DecidableEq

/-- Environment of `QdrantService`: connection state and the hit list the
client's `search` delivers for this request. The client is documented to
filter by `score_threshold`, but no ordering is imposed here because none is
imposed in the code. A client call that raises is observationally the empty
hit list (the service catches and returns `[]`). -/
structure SearchEnv where
  connected : Bool
  hits : List Hit

/-- Embedding of `QdrantService.search_similar_questions`: guard on the
connection and on a falsy query embedding, then return the client's hits
unchanged — in particular in the client's order, without re-sorting. -/
def search_similar_questions (s : SearchEnv) (query_embedding : List ℚ) : List Hit :=
  if s.connected = false then []
  else if query_embedding.isEmpty then []
  else s.hits

/-- Parameter names of `QdrantService.store_qa_embedding`
(`qa_id, question, embedding, metadata` — there is no `answer` parameter). -/
def store_qa_embedding_params : List String :=
  ["qa_id", "question", "embedding", "metadata"]

/-- Keyword names passed at every `store_qa_embedding` call site inside
`IntelligentQAService` (`_store_new_qa_pair` and
`_generate_and_store_variants` both pass `answer=`). -/
def intelligent_store_call_kwargs : List String :=
  ["qa_id", "question", "answer", "embedding", "metadata"]

/-- Python keyword binding: a call raises `TypeError` when a passed keyword is
not among the callee's parameters. -/
def kwargs_bind (passed params : List String) : Bool :=
  passed.all (fun n => params.contains n)

/-- Outcome of awaiting a Python call that may raise. -/
inductive Call (α : Type) where
  | raises
  | ret (a : α)
deriving DecidableEq

/-- Body of `QdrantService.store_qa_embedding` (reachable only through a
successful keyword binding): guard on connection and on a falsy or invalid
embedding, then report the upsert outcome (an upsert that raises is caught
and reported as `false`). -/
def store_qa_embedding (s : SearchEnv) (upsertOk : Bool) (qa_id question : String)
    (embedding : List ℚ) : Bool :=
  if s.connected = false then false
  else if embedding.isEmpty then false
  else upsertOk

/-- Semantics of a keyword call of `store_qa_embedding`: binding failure is a
`TypeError` raised at the call site before the body runs. -/
def invoke_store_qa_embedding (passed : List String) (s : SearchEnv) (upsertOk : Bool)
    (qa_id question : String) (embedding : List ℚ) : Call Bool :=
  if kwargs_bind passed store_qa_embedding_params then
    .ret (store_qa_embedding s upsertOk qa_id question embedding)
  else .raises

-- Durable Q&A store records and the pipeline environment.

/-- Modelled from the spec: a `QARecord` row of the Durable Q&A Store. The
repository module (`services.repositories.qa_pair_repository`) is absent from
the source tree — only its call sites exist — so it is taken from §3/§6 of the
specification: `getById(id) -> QARecord | NotFound`,
`create(question, answer, metadata) -> QARecord`. -/
structure QaPair where
  id : String
  question_text : String
  answer_text : String
deriving DecidableEq

/-- Environment of one `process_question` request: the outcome every external
collaborator would deliver. `repoLookup`/`repoCreate` are the spec-modelled
durable-store repository (`Call.raises` models a database error propagating
into the pipeline's `try`). `webFetch` is the spec-modelled context-enrichment
fetch (`get_content_for_context` has no implementation in the source tree;
§6 of the specification gives it the total contract
`fetch(query) -> text | None`). `hashOf`/`timeNow` stand for Python's `hash`
and `int(time.time())` in the generated identifiers. -/
structure Env where
  embed : Option (List ℚ)
  search : SearchEnv
  repoLookup : String → Call (Option QaPair)
  webFetch : Option String
  gemini : GeminiState
  repoCreate : Call (Option QaPair)
  qdrantUpsertOk : Bool
  variants : List String
  variantEmbed : String → Option (List ℚ)
  hashOf : String → Nat
  timeNow : Nat

/-- Identifier `f"qa_{abs(hash(question))}_{int(time.time())}"` built by
`_store_new_qa_pair`. -/
def mk_qa_id (h t : Nat) : String :=
  "qa_" ++ toString h ++ "_" ++ toString t

/-- Identifier `f"variant_{abs(hash(variant))}_{int(time.time())}"` built by
`_generate_and_store_variants`. -/
def mk_variant_id (h t : Nat) : String :=
  "variant_" ++ toString h ++ "_" ++ toString t

/-- Result of `_store_new_qa_pair` together with what it attempted. -/
structure StoreOutcome where
  ok : Bool
  qa_id : String
  qdrant_attempted : Bool
  qdrant_ok : Bool
deriving DecidableEq

/-- Embedding of `IntelligentQAService._store_new_qa_pair`: create the
PostgreSQL record first (falsy record or exception → `False`), then attempt
the Qdrant write. The Qdrant call passes `answer=` — a keyword
`store_qa_embedding` does not accept — so when reached it raises `TypeError`
into the function's own `except`, which returns `False`; had the call bound,
a `False` from Qdrant would still yield `True` (the code only logs it). -/
def store_new_qa_pair (env : Env) (question : String) (embedding : List ℚ) : StoreOutcome :=
  let qa_id := mk_qa_id (env.hashOf question) env.timeNow
  match env.repoCreate with
  | .raises => ⟨false, qa_id, false, false⟩
  | .ret none => ⟨false, qa_id, false, false⟩
  | .ret (some _) =>
    match invoke_store_qa_embedding intelligent_store_call_kwargs env.search
        env.qdrantUpsertOk qa_id question embedding with
    | .raises => ⟨false, qa_id, true, false⟩
    | .ret b => ⟨true, qa_id, true, b⟩

/-- One vector-index write attempted by `_generate_and_store_variants`:
the identifier and question it passes, the `is_variant` flag set in its
metadata, and whether the write succeeded. -/
structure VariantWrite where
  qa_id : String
  question : String
  is_variant : Bool
  succeeded : Bool
deriving DecidableEq

/-- Embedding of `IntelligentQAService._generate_and_store_variants`: for each
variant with a truthy embedding, attempt a Qdrant write under the fresh
identifier `variant_…` with `is_variant: True` metadata; each attempt's
exception lands in the per-variant `except` and the loop continues, and the
function's outer `except` swallows the rest — nothing propagates. -/
def generate_and_store_variants (env : Env) : List VariantWrite :=
  env.variants.filterMap fun v =>
    match env.variantEmbed v with
    | none => none
    | some ve =>
      if ve.isEmpty then none
      else
        let vid := mk_variant_id (env.hashOf v) env.timeNow
        match invoke_store_qa_embedding intelligent_store_call_kwargs env.search
            env.qdrantUpsertOk vid v ve with
        | .raises => some ⟨vid, v, true, false⟩
        | .ret b => some ⟨vid, v, true, b⟩

/-- Response dictionary of `process_question` (fields the claims mention;
`_format_error`'s free-text message is log-only and not retained). -/
structure PResult where
  status : String
  answer : Option String
  source : String
  confidence : ℚ
  reason : Option String
  steps : List String
deriving DecidableEq

/-- Embedding of `IntelligentQAService._format_response`. -/
def format_response (answer source : String) (confidence : ℚ)
    (steps : List String) : PResult :=
  { status := "success", answer := some answer, source := source,
    confidence := confidence, reason := none, steps := steps }

/-- Embedding of `IntelligentQAService._format_error`: `status = "error"`,
`answer = None`, `confidence = 0.0`, `source = "error"`. -/
def format_error (reason : String) (steps : List String) : PResult :=
  { status := "error", answer := none, source := "error", confidence := 0,
    reason := some reason, steps := steps }

/-- Observables of one request: which collaborators the pipeline invoked. -/
structure Obs where
  embedCalled : Bool
  geminiInvoked : Bool
  providerCalls : Nat
  storeAttempt : Option StoreOutcome
  variantWrites : List VariantWrite
deriving DecidableEq

/-- Context argument handed to the Gemini call:
`context=web_context if web_context else context` — the (spec-modelled) web
content when truthy, otherwise the caller's context. -/
def eff_context (env : Env) (context : Option String) : Option String :=
  match env.webFetch with
  | some w => if w.isEmpty then context else some w
  | none => context

/-- Cache-miss continuation of `process_question` (everything after the
cache-hit check fell through), parameterized by the outcome `gout` of the
awaited `gemini_service.answer_question(...)` expression and the provider
call count. The `Call.raises` arm is the literal translation of the `except`
handler of lines 332–368 (salvage fallback); `gemini_answer_question` never
raises, so in the composed pipeline that arm is dead code. When the call
returns `None` the code appends `"gemini_api_success"` and then evaluates
`gemini_response["answer"]`, a `TypeError` on `None` that the outer handler
converts into a generic internal error. -/
def miss_path (env : Env) (normalized : String) (emb : List ℚ) (similar : List Hit)
    (steps : List String) (gout : Call (Option GeminiResp)) (calls : Nat) :
    PResult × Obs :=
  let steps := steps ++ ["semantic_search_miss_or_low_quality", "web_content_fetched"]
  match gout with
  | .raises =>
    let steps := steps ++ ["gemini_api_failed"]
    match similar with
    | best :: _ =>
      if best.similarity_score ≥ salvage_threshold then
        match env.repoLookup best.qa_id with
        | .raises =>
          (format_error "internal_error" steps, ⟨true, true, calls, none, []⟩)
        | .ret (some qa) =>
          (format_response qa.answer_text "vector_search_fallback"
             best.similarity_score steps, ⟨true, true, calls, none, []⟩)
        | .ret none =>
          (format_error "generation_failure" steps, ⟨true, true, calls, none, []⟩)
      else (format_error "generation_failure" steps, ⟨true, true, calls, none, []⟩)
    | [] => (format_error "generation_failure" steps, ⟨true, true, calls, none, []⟩)
  | .ret none =>
    (format_error "internal_error" (steps ++ ["gemini_api_success"]),
     ⟨true, true, calls, none, []⟩)
  | .ret (some resp) =>
    let steps := steps ++ ["gemini_api_success"]
    let st := store_new_qa_pair env normalized emb
    let steps := steps ++ [if st.ok then "answer_stored" else "storage_failed"]
    let vw := generate_and_store_variants env
    let steps := steps ++ ["variants_generated"]
    (format_response resp.answer "gemini_api" resp.confidence steps,
     ⟨true, true, calls, some st, vw⟩)

/-- Embedding of the `HEAD`-side `IntelligentQAService.process_question`
pipeline: normalize, embed (falsy embedding aborts with an embedding error),
search Qdrant, return the stored PostgreSQL answer on a high-quality top match
(falling through on a dangling reference or a sub-threshold score), otherwise
fetch web context and generate with Gemini, persist best-effort, index
variants and return the generated answer. The outcome of the Gemini call is
computed by `gemini_answer_question` and fed to `miss_path` as a returned
value, never as being raised. -/
def process_question (env : Env) (question : String) (context : Option String) :
    PResult × Obs :=
  let steps : List String := ["input_normalized"]
  let normalized := normalize_question question
  match env.embed with
  | none => (format_error "embedding_failure" steps, ⟨true, false, 0, none, []⟩)
  | some emb =>
    if emb.isEmpty then (format_error "embedding_failure" steps, ⟨true, false, 0, none, []⟩)
    else
      let steps := steps ++ ["embedding_generated"]
      let similar := search_similar_questions env.search emb
      let gres := gemini_answer_question env.gemini normalized (eff_context env context)
      match similar with
      | [] => miss_path env normalized emb [] steps (.ret gres.1) gres.2
      | best :: rest =>
        let steps := steps ++ ["semantic_search_hit"]
        if best.similarity_score ≥ quality_threshold then
          match env.repoLookup best.qa_id with
          | .raises =>
            (format_error "internal_error" steps, ⟨true, false, 0, none, []⟩)
          | .ret (some qa) =>
            (format_response qa.answer_text "vector_search" best.similarity_score steps,
             ⟨true, false, 0, none, []⟩)
          | .ret none =>
            miss_path env normalized emb (best :: rest) steps (.ret gres.1) gres.2
        else miss_path env normalized emb (best :: rest) steps (.ret gres.1) gres.2

-- Concrete scenario data used by witnesses and counterexamples.

/-- Provider that fails transiently on the first two calls and would succeed
on the third. -/
def provTransientTwice : Nat → ProviderResult := fun n =>
  if n < 2 then .raised "transient_timeout"
  else .text "Damascus is the capital of Syria and its largest city."

/-- Hit with the lower score, listed first by the index. -/
def hitLow : Hit := ⟨"qa_low", "q1", some "a1", mkRat 86 100⟩

/-- Hit with the higher score, listed second by the index. -/
def hitHigh : Hit := ⟨"qa_high", "q2", some "a2", mkRat 97 100⟩

/-- Stored record used by C1's witness. -/
def qaC1 : QaPair :=
  ⟨"7", "What is the capital of Syria?", "Damascus is the capital of Syria."⟩

/-- Environment of C1's witness: one indexed match at score 0.97 whose record
exists in the durable store. -/
def envC1 : Env :=
  { embed := some [1]
    search := ⟨true, [⟨"qa_97", "What is the capital of Syria?",
      some "Damascus is the capital of Syria.", mkRat 97 100⟩]⟩
    repoLookup := fun _ => .ret (some qaC1)
    webFetch := none
    gemini := ⟨true, fun _ => .raised "unused"⟩
    repoCreate := .ret (some qaC1)
    qdrantUpsertOk := true
    variants := []
    variantEmbed := fun _ => none
    hashOf := fun _ => 7
    timeNow := 1 }

/-- Environment of C2's witness: a 0.97-scoring match whose `qa_id` resolves
to no stored record; the provider would answer successfully. -/
def envC2 : Env :=
  { embed := some [1]
    search := ⟨true, [⟨"qa_gone", "What is the capital of Syria?",
      some "Damascus is the capital of Syria.", mkRat 97 100⟩]⟩
    repoLookup := fun _ => .ret none
    webFetch := none
    gemini := ⟨true, fun _ => .text "Damascus is the capital of Syria."⟩
    repoCreate := .ret none
    qdrantUpsertOk := true
    variants := []
    variantEmbed := fun _ => none
    hashOf := fun _ => 7
    timeNow := 1 }

/-- Environment of C4's failing input: one salvage-eligible indexed match at
score 0.9 whose record exists in the durable store, and a rate-limited
generative provider. -/
def envC4 : Env :=
  { embed := some [1]
    search := ⟨true, [⟨"qa_9", "What is the capital of Syria?",
      some "Damascus is the capital of Syria.", mkRat 9 10⟩]⟩
    repoLookup := fun _ => .ret (some qaC1)
    webFetch := none
    gemini := ⟨true, fun _ => .raised "rate_limited"⟩
    repoCreate := .ret (some qaC1)
    qdrantUpsertOk := true
    variants := []
    variantEmbed := fun _ => none
    hashOf := fun _ => 7
    timeNow := 1 }

/-- Gemini state of C5's witness: the provider answers successfully. -/
def gemC5 : GeminiState := ⟨true, fun _ => .text "Damascus is the capital of Syria."⟩

/-- Stored record created by C5's witness persistence. -/
def qaC5 : QaPair :=
  ⟨"11", "What is the capital of Syria?", "Damascus is the capital of Syria."⟩

/-- Environment of C5's witness: cache miss, successful generation, durable
store write succeeds, vector-index write fails. -/
def envC5 : Env :=
  { embed := some [1]
    search := ⟨true, []⟩
    repoLookup := fun _ => .ret none
    webFetch := none
    gemini := gemC5
    repoCreate := .ret (some qaC5)
    qdrantUpsertOk := true
    variants := []
    variantEmbed := fun _ => none
    hashOf := fun _ => 7
    timeNow := 1 }

/-- Response the C5 witness provider produces (defined by projection so the
witness hypothesis is definitional). -/
def respC5 : GeminiResp :=
  ((gemini_answer_question gemC5
      (normalize_question "What is the capital of Syria?") (eff_context envC5 none)).1).getD
    ⟨"", 0⟩

/-- Environment of C7's counterexample: one paraphrase variant with a valid
embedding. -/
def envC7 : Env :=
  { embed := some [1]
    search := ⟨true, []⟩
    repoLookup := fun _ => .ret none
    webFetch := none
    gemini := ⟨true, fun _ => .raised "unused"⟩
    repoCreate := .ret (some qaC1)
    qdrantUpsertOk := true
    variants := ["How large is Syria?"]
    variantEmbed := fun _ => some [1]
    hashOf := fun _ => 7
    timeNow := 1 }

/-- Environment of C8's counterexample: a healthy pipeline receiving a
whitespace-only question. -/
def envC8 : Env :=
  { embed := some [1]
    search := ⟨true, []⟩
    repoLookup := fun _ => .ret none
    webFetch := none
    gemini := ⟨true, fun _ => .text "Syria is a country in western Asia."⟩
    repoCreate := .ret (some ⟨"1", "?", "Syria is a country in western Asia."⟩)
    qdrantUpsertOk := true
    variants := []
    variantEmbed := fun _ => none
    hashOf := fun _ => 7
    timeNow := 1 }

/-- Environment of C10's witness: the embedding provider fails, so the
request ends in an error result. -/
def envC10 : Env :=
  { embed := none
    search := ⟨true, []⟩
    repoLookup := fun _ => .ret none
    webFetch := none
    gemini := ⟨false, fun _ => .empty⟩
    repoCreate := .ret none
    qdrantUpsertOk := false
    variants := []
    variantEmbed := fun _ => none
    hashOf := fun _ => 0
    timeNow := 0 }

-- Lemmas about the normalizer, leading to idempotence (claim C9).

theorem collapseWs_one (c : Char) :
    collapseWs [c] = if pyIsSpace c then [' '] else [c] := rfl

theorem collapseWs_two (c d : Char) (rest : List Char) :
    collapseWs (c :: d :: rest) =
      if pyIsSpace c then
        (if pyIsSpace d then collapseWs (d :: rest) else ' ' :: collapseWs (d :: rest))
      else c :: collapseWs (d :: rest) := rfl

theorem dropWhile_length_le (p : Char → Bool) (l : List Char) :
    (l.dropWhile p).length ≤ l.length := by
  induction l with
  | nil => simp
  | cons c r ih =>
    rw [List.dropWhile_cons]
    by_cases h : p c = true
    · simp only [h, if_true, List.length_cons]
      omega
    · simp [h]

theorem dropWhile_eq_self_of_head (p : Char → Bool) (c : Char) (r : List Char)
    (hc : p c = false) : (c :: r).dropWhile p = c :: r := by
  rw [List.dropWhile_cons, hc]
  simp

theorem head_false_of_dropWhile_eq_self (p : Char → Bool) (c : Char) (r : List Char)
    (h : (c :: r).dropWhile p = c :: r) : p c = false := by
  by_cases hpc : p c = true
  · rw [List.dropWhile_cons, hpc] at h
    simp only [if_true] at h
    have hlen := dropWhile_length_le p r
    rw [h] at hlen
    simp at hlen
  · simpa using hpc

theorem dropWhile_idem (p : Char → Bool) (l : List Char) :
    (l.dropWhile p).dropWhile p = l.dropWhile p := by
  induction l with
  | nil => rfl
  | cons c r ih =>
    rw [List.dropWhile_cons]
    by_cases h : p c = true
    · simp only [h, if_true]
      exact ih
    · simp only [h, Bool.false_eq_true, if_false]
      exact dropWhile_eq_self_of_head _ _ _ (by simpa using h)

theorem collapseWs_cons_of_not_space (c : Char) (l : List Char) (hc : pyIsSpace c = false) :
    collapseWs (c :: l) = c :: collapseWs l := by
  cases l with
  | nil => rw [collapseWs_one, if_neg (by simp [hc])]; rfl
  | cons d r => rw [collapseWs_two, if_neg (by simp [hc])]

theorem collapseWs_head_not_space (l : List Char) (h : l.dropWhile pyIsSpace = l) :
    (collapseWs l).dropWhile pyIsSpace = collapseWs l := by
  cases l with
  | nil => rfl
  | cons c r =>
    have hc : pyIsSpace c = false := head_false_of_dropWhile_eq_self _ _ _ h
    rw [collapseWs_cons_of_not_space c r hc]
    exact dropWhile_eq_self_of_head _ _ _ hc

theorem collapseWs_append_not_space (l : List Char) (c : Char) (hc : pyIsSpace c = false) :
    collapseWs (l ++ [c]) = collapseWs l ++ [c] := by
  induction l with
  | nil =>
    simp only [List.nil_append, collapseWs_one, if_neg (by simp [hc] : ¬pyIsSpace c = true)]
    rfl
  | cons a t ih =>
    cases t with
    | nil =>
      by_cases ha : pyIsSpace a = true
      · simp only [List.cons_append, List.nil_append, collapseWs_two, collapseWs_one,
          if_pos ha, if_neg (by simp [hc] : ¬pyIsSpace c = true)]
      · simp only [List.cons_append, List.nil_append, collapseWs_two, collapseWs_one,
          if_neg ha, if_neg (by simp [hc] : ¬pyIsSpace c = true)]
    | cons b u =>
      by_cases ha : pyIsSpace a = true
      · by_cases hb : pyIsSpace b = true
        · simp only [List.cons_append, collapseWs_two, if_pos ha, if_pos hb] at ih ⊢
          exact ih
        · simp only [List.cons_append, collapseWs_two, if_pos ha, if_neg hb] at ih ⊢
          simpa using ih
      · simp only [List.cons_append, collapseWs_two, if_neg ha] at ih ⊢
        simpa using ih

theorem collapseWs_idem (l : List Char) : collapseWs (collapseWs l) = collapseWs l := by
  induction l with
  | nil => rfl
  | cons c t ih =>
    cases t with
    | nil =>
      by_cases hc : pyIsSpace c = true
      · rw [collapseWs_one, if_pos hc]
        rfl
      · rw [collapseWs_one, if_neg hc, collapseWs_one,
          if_neg (by simpa using hc : ¬pyIsSpace c = true)]
    | cons d u =>
      by_cases hc : pyIsSpace c = true
      · by_cases hd : pyIsSpace d = true
        · rw [collapseWs_two, if_pos hc, if_pos hd]
          exact ih
        · have hd' : pyIsSpace d = false := by simpa using hd
          have h1 : collapseWs (c :: d :: u) = ' ' :: collapseWs (d :: u) := by
            rw [collapseWs_two, if_pos hc, if_neg hd]
          rw [h1]
          have h2 : collapseWs (d :: u) = d :: collapseWs u :=
            collapseWs_cons_of_not_space d u hd'
          rw [h2]
          have h3 : collapseWs (' ' :: d :: collapseWs u) =
              ' ' :: collapseWs (d :: collapseWs u) := by
            rw [collapseWs_two, if_pos (by decide), if_neg hd]
          rw [h3, ← h2, ih]
      · have hc' : pyIsSpace c = false := by simpa using hc
        have h1 : collapseWs (c :: d :: u) = c :: collapseWs (d :: u) := by
          rw [collapseWs_two, if_neg hc]
        rw [h1, collapseWs_cons_of_not_space c (collapseWs (d :: u)) hc', ih]

theorem dropTrail_no_lead (m : List Char) (hmfix : m.dropWhile pyIsSpace = m) :
    ((m.reverse.dropWhile pyIsSpace).reverse).dropWhile pyIsSpace
      = (m.reverse.dropWhile pyIsSpace).reverse := by
  have hdecomp : m = (m.reverse.dropWhile pyIsSpace).reverse ++
      (m.reverse.takeWhile pyIsSpace).reverse := by
    conv_lhs => rw [← m.reverse_reverse]
    rw [← List.reverse_append, List.takeWhile_append_dropWhile]
  cases h : (m.reverse.dropWhile pyIsSpace).reverse with
  | nil => rfl
  | cons c r =>
    rw [h, List.cons_append] at hdecomp
    have hhead : pyIsSpace c = false := by
      apply head_false_of_dropWhile_eq_self pyIsSpace c
        (r ++ (m.reverse.takeWhile pyIsSpace).reverse)
      rw [← hdecomp]
      exact hmfix
    exact dropWhile_eq_self_of_head _ _ _ hhead

theorem pyStrip_no_lead (l : List Char) :
    (pyStrip l).dropWhile pyIsSpace = pyStrip l := by
  unfold pyStrip
  exact dropTrail_no_lead _ (dropWhile_idem _ _)

theorem endsPunct_append (l : List Char) (c : Char) (hc : (c = '?' ∨ c = '؟' ∨ c = '.')) :
    endsPunct (l ++ [c]) = true := by
  unfold endsPunct
  rw [List.getLast?_concat]
  simpa using hc

theorem normalizeChars_idem (l : List Char) :
    normalizeChars (normalizeChars l) = normalizeChars l := by
  unfold normalizeChars
  set A := collapseWs (pyStrip l) with hA
  have hAnolead : A.dropWhile pyIsSpace = A := by
    rw [hA]
    exact collapseWs_head_not_space _ (pyStrip_no_lead l)
  by_cases hp : endsPunct A = true
  · -- no question mark appended: the normalized form is A itself
    simp only [hp, if_true]
    -- A ends with punctuation, hence has a non-space last character
    have hlast : ∃ c r, A = r ++ [c] ∧ pyIsSpace c = false := by
      unfold endsPunct at hp
      cases hgl : A.getLast? with
      | none => rw [hgl] at hp; simp at hp
      | some c =>
        rw [hgl] at hp
        rcases List.getLast?_eq_some_iff.mp hgl with ⟨r, hr⟩
        refine ⟨c, r, hr, ?_⟩
        have hc : c = '?' ∨ c = '؟' ∨ c = '.' := by simpa using hp
        rcases hc with h | h | h <;> (subst h; decide)
    rcases hlast with ⟨c, r, hr, hcns⟩
    have hstrip : pyStrip A = A := by
      unfold pyStrip
      rw [hAnolead, hr]
      rw [List.reverse_append]
      simp only [List.reverse_cons, List.reverse_nil, List.nil_append, List.singleton_append]
      rw [List.dropWhile_cons, hcns]
      simp
    rw [hstrip]
    have hcol : collapseWs A = A := by
      rw [hA]
      exact collapseWs_idem _
    rw [hcol, hp]
    simp
  · -- a question mark is appended
    simp only [hp, Bool.false_eq_true, if_false]
    set q := if hasArabicChar A then '؟' else '?' with hq
    have hqns : pyIsSpace q = false := by
      rw [hq]
      by_cases h : hasArabicChar A = true
      · simp only [h, if_true]
        decide
      · simp only [h, if_false]
        decide
    have hqp : q = '?' ∨ q = '؟' ∨ q = '.' := by
      rw [hq]
      by_cases h : hasArabicChar A = true
      · simp [h]
      · simp [h]
    have hstrip : pyStrip (A ++ [q]) = A ++ [q] := by
      unfold pyStrip
      have h1 : (A ++ [q]).dropWhile pyIsSpace = A ++ [q] := by
        cases hAe : A with
        | nil =>
          simp only [List.nil_append]
          rw [List.dropWhile_cons, hqns]
          simp
        | cons a t =>
          have ha : pyIsSpace a = false := by
            apply head_false_of_dropWhile_eq_self pyIsSpace a t
            rw [← hAe]
            exact hAnolead
          rw [List.cons_append, List.dropWhile_cons, ha]
          simp
      rw [h1, List.reverse_append]
      simp only [List.reverse_cons, List.reverse_nil, List.nil_append, List.singleton_append]
      rw [List.dropWhile_cons, hqns]
      simp
    rw [hstrip]
    have hcol : collapseWs (A ++ [q]) = A ++ [q] := by
      rw [collapseWs_append_not_space A q hqns, hA, collapseWs_idem]
    rw [hcol]
    rw [endsPunct_append _ _ hqp]
    simp

/-- C9: applying `_normalize_question` twice equals applying it once for every
non-empty input — whitespace collapsing, trimming and question-mark appension
are stable on already-normalized text. -/
theorem C9_normalize_idempotent (x : String) (hx : x ≠ "") :
    normalize_question (normalize_question x) = normalize_question x := by
  show String.mk (normalizeChars (String.mk (normalizeChars x.data)).data)
      = String.mk (normalizeChars x.data)
  exact congrArg String.mk (normalizeChars_idem x.data)

/-- Witness for C9 at the concrete input `"  hello   world"`. -/
theorem C9_normalize_idempotent_witness :
    "  hello   world" ≠ "" ∧
      normalize_question (normalize_question "  hello   world")
        = normalize_question "  hello   world" :=
  ⟨by decide, C9_normalize_idempotent "  hello   world" (by decide)⟩

-- Shape facts shared by several claims.

theorem miss_path_ret_geminiInvoked (env : Env) (n : String) (e : List ℚ)
    (sim : List Hit) (steps : List String) (g : Option GeminiResp) (c : Nat) :
    (miss_path env n e sim steps (.ret g) c).2.geminiInvoked = true := by
  unfold miss_path
  cases g with
  | none => rfl
  | some resp => rfl

theorem miss_path_ret_source_ne (env : Env) (n : String) (e : List ℚ)
    (sim : List Hit) (steps : List String) (g : Option GeminiResp) (c : Nat) :
    (miss_path env n e sim steps (.ret g) c).1.source ≠ "vector_search" := by
  unfold miss_path
  cases g with
  | none => simp [format_error]
  | some resp => simp [format_response]

theorem miss_path_steps_mem (env : Env) (n : String) (e : List ℚ)
    (sim : List Hit) (steps : List String) (g : Call (Option GeminiResp)) (c : Nat) :
    "semantic_search_miss_or_low_quality" ∈ (miss_path env n e sim steps g c).1.steps := by
  unfold miss_path
  repeat' split
  all_goals simp_all [format_error, format_response]

theorem miss_path_result_form (env : Env) (n : String) (e : List ℚ)
    (sim : List Hit) (steps : List String) (g : Call (Option GeminiResp)) (c : Nat) :
    (∃ a s cc st, (miss_path env n e sim steps g c).1 = format_response a s cc st) ∨
    (∃ r st, (miss_path env n e sim steps g c).1 = format_error r st ∧
      (r = "generation_failure" ∨ r = "internal_error")) := by
  unfold miss_path
  repeat' split
  all_goals first
    | exact Or.inl ⟨_, _, _, _, rfl⟩
    | exact Or.inr ⟨_, _, rfl, by simp⟩

theorem process_question_result_form (env : Env) (q : String) (ctx : Option String) :
    (∃ a s c st, (process_question env q ctx).1 = format_response a s c st) ∨
    (∃ r st, (process_question env q ctx).1 = format_error r st ∧
      (r = "embedding_failure" ∨ r = "generation_failure" ∨ r = "internal_error")) := by
  have hmiss : ∀ (n : String) (e : List ℚ) (sim : List Hit) (steps : List String)
      (g : Call (Option GeminiResp)) (c : Nat),
      (∃ a s cc st, (miss_path env n e sim steps g c).1 = format_response a s cc st) ∨
      (∃ r st, (miss_path env n e sim steps g c).1 = format_error r st ∧
        (r = "embedding_failure" ∨ r = "generation_failure" ∨ r = "internal_error")) := by
    intro n e sim steps g c
    rcases miss_path_result_form env n e sim steps g c with h | ⟨r, st, h, hr⟩
    · exact Or.inl h
    · exact Or.inr ⟨r, st, h, Or.inr hr⟩
  cases henv : env.embed with
  | none =>
    unfold process_question
    rw [henv]
    exact Or.inr ⟨_, _, rfl, by simp⟩
  | some emb =>
    unfold process_question
    rw [henv]
    dsimp only
    repeat' split
    all_goals first
      | exact Or.inl ⟨_, _, _, _, rfl⟩
      | exact Or.inr ⟨_, _, rfl, by simp⟩
      | exact hmiss _ _ _ _ _ _

/-- C10: the public entry point is total in the model — every result has
status `"success"` or `"error"`, and every error result carries
`answer = None` and `confidence = 0.0` (shape of `_format_error`); internal
exceptions from collaborator calls (`Call.raises` environments) are caught
and converted to such an error dictionary, never propagated. -/
theorem C10_process_question_totality (env : Env) (q : String) (ctx : Option String) :
    ((process_question env q ctx).1.status = "success" ∨
      (process_question env q ctx).1.status = "error") ∧
    ((process_question env q ctx).1.status = "error" →
      (process_question env q ctx).1.answer = none ∧
      (process_question env q ctx).1.confidence = 0) := by
  rcases process_question_result_form env q ctx with ⟨a, s, c, st, h⟩ | ⟨r, st, h, hr⟩
  · rw [h]
    exact ⟨Or.inl rfl, fun hh => absurd hh (by simp [format_response])⟩
  · rw [h]
    exact ⟨Or.inr rfl, fun _ => ⟨rfl, rfl⟩⟩

/-- Witness for C10 at a concrete error outcome (embedding failure): the
error result carries no answer and zero confidence. -/
theorem C10_process_question_totality_witness :
    (process_question envC10 "What is Syria?" none).1.answer = none ∧
    (process_question envC10 "What is Syria?" none).1.confidence = 0 :=
  (C10_process_question_totality envC10 "What is Syria?" none).2 rfl

-- Claim C3: generation retry bound.



/-- C3 counterexample: with a provider that fails transiently exactly twice
and would succeed on the third call, `answer_question` returns `None` after a
single provider call — there is no retry loop, no backoff, and no third
attempt, so the generation does not yield a successful result as the claim
requires. -/
theorem C3_counterexample_no_third_attempt :
    (gemini_answer_question ⟨true, provTransientTwice⟩
        "What is the capital of Syria?" none).1 = none ∧
    (gemini_answer_question ⟨true, provTransientTwice⟩
        "What is the capital of Syria?" none).2 = 1 := by
  constructor <;> rfl

/-- C3 amended: fallback generation attempts the provider at most once, with
no backoff; a provider call that raises — transiently, for quota, or for
authorization alike — makes `answer_question` return `None` without any
retry. -/
theorem C3_amended_single_attempt (st : GeminiState) (q : String) (ctx : Option String) :
    (gemini_answer_question st q ctx).2 ≤ 1 ∧
    (∀ k, st.provider 0 = .raised k → (gemini_answer_question st q ctx).1 = none) := by
  unfold gemini_answer_question
  cases hc : st.connected with
  | false => simp
  | true =>
    refine ⟨?_, ?_⟩
    · repeat' split
      all_goals simp
    · intro k hk
      simp [hk]

/-- Witness for C3's amended theorem: an unauthorized provider is consulted at
most once and yields `None`. -/
theorem C3_amended_single_attempt_witness :
    (gemini_answer_question ⟨true, fun _ => .raised "unauthorized"⟩ "q" none).2 ≤ 1 ∧
    (gemini_answer_question ⟨true, fun _ => .raised "unauthorized"⟩ "q" none).1 = none :=
  ⟨(C3_amended_single_attempt ⟨true, fun _ => .raised "unauthorized"⟩ "q" none).1,
   (C3_amended_single_attempt ⟨true, fun _ => .raised "unauthorized"⟩ "q" none).2
     "unauthorized" rfl⟩

-- Claim C6: ordering of search results.



/-- C6 counterexample: when the index returns its matches unsorted, the
coordinator returns them in the same order — it does not re-sort — so the
first element (the `best_match` the decision engine uses) is not a
maximal-score match. -/
theorem C6_counterexample_no_resort :
    search_similar_questions ⟨true, [hitLow, hitHigh]⟩ [1] = [hitLow, hitHigh] ∧
    (search_similar_questions ⟨true, [hitLow, hitHigh]⟩ [1]).head? = some hitLow ∧
    hitLow.similarity_score < hitHigh.similarity_score := by
  refine ⟨rfl, rfl, by decide⟩

theorem search_hits_passthrough (s : SearchEnv) (emb : List ℚ)
    (h1 : s.connected = true) (h2 : emb.isEmpty = false) :
    search_similar_questions s emb = s.hits := by
  unfold search_similar_questions
  simp [h1, h2]

/-- C6 amended: the similarity-search step returns the index's matches exactly
in the order the index delivered them, performing no defensive re-sort; the
top match used by the decision engine is therefore the first listed match,
which is maximal only when the index itself returns descending order. -/
theorem C6_amended_order_passthrough (s : SearchEnv) (emb : List ℚ)
    (h1 : s.connected = true) (h2 : emb.isEmpty = false) :
    search_similar_questions s emb = s.hits :=
  search_hits_passthrough s emb h1 h2

/-- Witness for C6's amended theorem at a concrete unsorted hit list. -/
theorem C6_amended_order_passthrough_witness :
    search_similar_questions ⟨true, [hitLow, hitHigh]⟩ [1] = [hitLow, hitHigh] :=
  C6_amended_order_passthrough ⟨true, [hitLow, hitHigh]⟩ [1] rfl rfl

-- Claim C1: two-threshold decision rule.

/-- C1: the two-threshold decision rule. Under a healthy embedding and search
(hypotheses `h1`–`h3`): (a) when the top match scores at least the quality
threshold 0.95 and its record exists in the durable store, `process_question`
returns that stored answer with the cache-hit tag (`source = "vector_search"`,
the code's name for the spec's `source = cache`) and never invokes the
generative provider; (b) when the top match scores below 0.95, and (c) when
there is no match at or above the search threshold (the index then returns no
hits), the request proceeds to fallback generation and is never returned as a
cache hit. -/
theorem C1_two_threshold_decision (env : Env) (q : String) (ctx : Option String)
    (emb : List ℚ) (h1 : env.embed = some emb) (h2 : emb.isEmpty = false)
    (h3 : env.search.connected = true) :
    (∀ best rest qa, env.search.hits = best :: rest →
      best.similarity_score ≥ quality_threshold →
      env.repoLookup best.qa_id = .ret (some qa) →
      (process_question env q ctx).1 = format_response qa.answer_text "vector_search"
        best.similarity_score
        ["input_normalized", "embedding_generated", "semantic_search_hit"] ∧
      (process_question env q ctx).2.geminiInvoked = false ∧
      (process_question env q ctx).2.providerCalls = 0) ∧
    (∀ best rest, env.search.hits = best :: rest →
      ¬ best.similarity_score ≥ quality_threshold →
      (process_question env q ctx).2.geminiInvoked = true ∧
      (process_question env q ctx).1.source ≠ "vector_search") ∧
    (env.search.hits = [] →
      (process_question env q ctx).2.geminiInvoked = true ∧
      (process_question env q ctx).1.source ≠ "vector_search") := by
  refine ⟨?_, ?_, ?_⟩
  · intro best rest qa h4 h5 h6
    unfold process_question
    rw [h1]
    dsimp only
    simp only [h2, Bool.false_eq_true, if_false]
    rw [search_hits_passthrough env.search emb h3 h2, h4]
    dsimp only
    rw [if_pos h5, h6]
    exact ⟨rfl, rfl, rfl⟩
  · intro best rest h4 h5
    unfold process_question
    rw [h1]
    dsimp only
    simp only [h2, Bool.false_eq_true, if_false]
    rw [search_hits_passthrough env.search emb h3 h2, h4]
    dsimp only
    rw [if_neg h5]
    exact ⟨miss_path_ret_geminiInvoked _ _ _ _ _ _ _,
      miss_path_ret_source_ne _ _ _ _ _ _ _⟩
  · intro h4
    unfold process_question
    rw [h1]
    dsimp only
    simp only [h2, Bool.false_eq_true, if_false]
    rw [search_hits_passthrough env.search emb h3 h2, h4]
    dsimp only
    exact ⟨miss_path_ret_geminiInvoked _ _ _ _ _ _ _,
      miss_path_ret_source_ne _ _ _ _ _ _ _⟩



/-- Witness for C1 at a concrete cache hit (score 0.97 ≥ 0.95). -/
theorem C1_two_threshold_decision_witness :
    (process_question envC1 "What is the capital of Syria?" none).1 =
      format_response "Damascus is the capital of Syria." "vector_search" (mkRat 97 100)
        ["input_normalized", "embedding_generated", "semantic_search_hit"] ∧
    (process_question envC1 "What is the capital of Syria?" none).2.geminiInvoked = false ∧
    (process_question envC1 "What is the capital of Syria?" none).2.providerCalls = 0 :=
  (C1_two_threshold_decision envC1 "What is the capital of Syria?" none [1]
      rfl rfl rfl).1 _ [] qaC1 rfl (by decide) rfl

-- Claim C2: dangling reference fallback.

/-- C2: when the top match passes the quality threshold but the durable-store
lookup returns no record (dangling reference), `process_question` falls
through to the cache-miss path: the miss marker is logged, the generative
provider is invoked, and the result is never the cache-hit response. -/
theorem C2_dangling_reference_fallback (env : Env) (q : String) (ctx : Option String)
    (emb : List ℚ) (best : Hit) (rest : List Hit)
    (h1 : env.embed = some emb) (h2 : emb.isEmpty = false)
    (h3 : env.search.connected = true)
    (h4 : env.search.hits = best :: rest)
    (h5 : best.similarity_score ≥ quality_threshold)
    (h6 : env.repoLookup best.qa_id = .ret none) :
    (process_question env q ctx).2.geminiInvoked = true ∧
    "semantic_search_miss_or_low_quality" ∈ (process_question env q ctx).1.steps ∧
    (process_question env q ctx).1.source ≠ "vector_search" := by
  unfold process_question
  rw [h1]
  dsimp only
  simp only [h2, Bool.false_eq_true, if_false]
  rw [search_hits_passthrough env.search emb h3 h2, h4]
  dsimp only
  rw [if_pos h5, h6]
  exact ⟨miss_path_ret_geminiInvoked _ _ _ _ _ _ _,
    miss_path_steps_mem _ _ _ _ _ _ _,
    miss_path_ret_source_ne _ _ _ _ _ _ _⟩



/-- Witness for C2 at a concrete dangling reference. -/
theorem C2_dangling_reference_fallback_witness :
    (process_question envC2 "What is the capital of Syria?" none).2.geminiInvoked = true ∧
    "semantic_search_miss_or_low_quality" ∈
      (process_question envC2 "What is the capital of Syria?" none).1.steps ∧
    (process_question envC2 "What is the capital of Syria?" none).1.source ≠ "vector_search" :=
  C2_dangling_reference_fallback envC2 "What is the capital of Syria?" none [1] _ []
    rfl rfl rfl rfl (by decide) rfl

-- Claim C4: salvage fallback on generation failure.

/-- C4: evaluation at the failing input. With a rate-limited provider and a
salvage-eligible cached match (score 0.9 ≥ 0.3, record present),
`process_question` does not return the salvage answer: `answer_question`
swallows the provider exception and returns `None`, so the salvage `except`
branch of lines 332–368 never runs; the pipeline marks `gemini_api_success`
and then crashes subscripting `None`, surfacing a generic internal error. -/
theorem C4_rate_limited_no_salvage :
    (process_question envC4 "What is the capital of Syria?" none).1.status = "error" ∧
    (process_question envC4 "What is the capital of Syria?" none).1.reason =
      some "internal_error" ∧
    (process_question envC4 "What is the capital of Syria?" none).1.answer = none ∧
    (process_question envC4 "What is the capital of Syria?" none).1.source ≠
      "vector_search_fallback" ∧
    "gemini_api_success" ∈
      (process_question envC4 "What is the capital of Syria?" none).1.steps := by
  refine ⟨rfl, rfl, rfl, by decide, by decide⟩

-- Claim C5: persistence is best-effort and never escalated.

theorem invoke_with_answer_raises (s : SearchEnv) (u : Bool) (i qn : String) (e : List ℚ) :
    invoke_store_qa_embedding intelligent_store_call_kwargs s u i qn e = .raises := by
  unfold invoke_store_qa_embedding
  have hb : kwargs_bind intelligent_store_call_kwargs store_qa_embedding_params = false := by
    decide
  rw [hb]
  rfl

theorem store_new_qa_pair_pg_ok (env : Env) (n : String) (e : List ℚ) (qa : QaPair)
    (hc : env.repoCreate = .ret (some qa)) :
    store_new_qa_pair env n e =
      ⟨false, mk_qa_id (env.hashOf n) env.timeNow, true, false⟩ := by
  unfold store_new_qa_pair
  rw [hc]
  dsimp only
  rw [invoke_with_answer_raises]

theorem miss_path_some_concl (env : Env) (n : String) (e : List ℚ) (sim : List Hit)
    (steps : List String) (resp : GeminiResp) (c : Nat) (qa : QaPair)
    (hc : env.repoCreate = .ret (some qa)) :
    (miss_path env n e sim steps (.ret (some resp)) c).1.status = "success" ∧
    (miss_path env n e sim steps (.ret (some resp)) c).1.answer = some resp.answer ∧
    (miss_path env n e sim steps (.ret (some resp)) c).1.source = "gemini_api" ∧
    (miss_path env n e sim steps (.ret (some resp)) c).2.storeAttempt =
      some ⟨false, mk_qa_id (env.hashOf n) env.timeNow, true, false⟩ ∧
    "storage_failed" ∈ (miss_path env n e sim steps (.ret (some resp)) c).1.steps := by
  have hst := store_new_qa_pair_pg_ok env n e qa hc
  unfold miss_path
  dsimp only
  rw [hst]
  refine ⟨rfl, rfl, rfl, rfl, ?_⟩
  simp [format_response]

/-- C5: whenever generation succeeds on the cache-miss path and the
durable-store write succeeds, the vector-index write's failure (in this code
the `store_qa_embedding` call always raises `TypeError`, since it passes an
`answer` keyword the function does not accept) is not surfaced:
`process_question` still returns the generated answer as a success, and the
persistence failure is visible only as the `"storage_failed"` entry of the
processing-steps log. -/
theorem C5_storage_failure_not_escalated (env : Env) (q : String) (ctx : Option String)
    (emb : List ℚ) (resp : GeminiResp) (qa : QaPair)
    (h1 : env.embed = some emb) (h2 : emb.isEmpty = false)
    (h3 : env.search.connected = true)
    (h4 : env.search.hits = [] ∨ ∃ best rest, env.search.hits = best :: rest ∧
      (¬ best.similarity_score ≥ quality_threshold ∨
        env.repoLookup best.qa_id = .ret none))
    (hg : (gemini_answer_question env.gemini (normalize_question q)
      (eff_context env ctx)).1 = some resp)
    (hc : env.repoCreate = .ret (some qa)) :
    (process_question env q ctx).1.status = "success" ∧
    (process_question env q ctx).1.answer = some resp.answer ∧
    (process_question env q ctx).1.source = "gemini_api" ∧
    (process_question env q ctx).2.storeAttempt =
      some ⟨false, mk_qa_id (env.hashOf (normalize_question q)) env.timeNow, true, false⟩ ∧
    "storage_failed" ∈ (process_question env q ctx).1.steps := by
  rcases h4 with h4 | ⟨best, rest, h4, h5⟩
  · unfold process_question
    rw [h1]
    dsimp only
    simp only [h2, Bool.false_eq_true, if_false]
    rw [search_hits_passthrough env.search emb h3 h2, h4]
    dsimp only
    rw [hg]
    exact miss_path_some_concl env _ emb [] _ resp _ qa hc
  · unfold process_question
    rw [h1]
    dsimp only
    simp only [h2, Bool.false_eq_true, if_false]
    rw [search_hits_passthrough env.search emb h3 h2, h4]
    dsimp only
    by_cases hsc : best.similarity_score ≥ quality_threshold
    · rcases h5 with h5 | h5
      · exact absurd hsc h5
      · rw [if_pos hsc, h5]
        rw [hg]
        exact miss_path_some_concl env _ emb _ _ resp _ qa hc
    · rw [if_neg hsc]
      rw [hg]
      exact miss_path_some_concl env _ emb _ _ resp _ qa hc

/-- Witness for C5 at a concrete cache miss with a successful generation and
a failing vector-index write. -/
theorem C5_storage_failure_not_escalated_witness :
    (process_question envC5 "What is the capital of Syria?" none).1.status = "success" ∧
    (process_question envC5 "What is the capital of Syria?" none).1.answer =
      some respC5.answer ∧
    (process_question envC5 "What is the capital of Syria?" none).1.source = "gemini_api" ∧
    (process_question envC5 "What is the capital of Syria?" none).2.storeAttempt =
      some ⟨false, mk_qa_id (envC5.hashOf
        (normalize_question "What is the capital of Syria?")) envC5.timeNow, true, false⟩ ∧
    "storage_failed" ∈ (process_question envC5 "What is the capital of Syria?" none).1.steps :=
  C5_storage_failure_not_escalated envC5 "What is the capital of Syria?" none [1] respC5 qaC5
    rfl rfl rfl (Or.inl rfl) rfl rfl

-- Claim C7: variant indexing.

theorem string_head_append_ne (s t u v : String) (hs : s.data.head? = some 'v')
    (ht : t.data.head? = some 'q') : s ++ u ≠ t ++ v := by
  intro he
  have h1 : (s ++ u).data.head? = (t ++ v).data.head? := congrArg (fun x => x.data.head?) he
  have h2 : (s ++ u).data = s.data ++ u.data := rfl
  have h3 : (t ++ v).data = t.data ++ v.data := rfl
  rw [h2, h3] at h1
  cases hsd : s.data with
  | nil => rw [hsd] at hs; simp at hs
  | cons a as =>
    cases htd : t.data with
    | nil => rw [htd] at ht; simp at ht
    | cons b bs =>
      rw [hsd] at hs h1
      rw [htd] at ht h1
      simp_all

theorem mk_variant_id_ne_mk_qa_id (h t h2 t2 : Nat) :
    mk_variant_id h t ≠ mk_qa_id h2 t2 := by
  unfold mk_variant_id mk_qa_id
  have : ∀ a b : String, ("variant_" ++ a) ++ b = "variant_" ++ (a ++ b) := fun a b =>
    String.append_assoc _ _ _
  intro he
  apply string_head_append_ne "variant_" "qa_"
    (toString h ++ "_" ++ toString t) (toString h2 ++ "_" ++ toString t2) rfl rfl
  calc "variant_" ++ (toString h ++ "_" ++ toString t)
      = "variant_" ++ toString h ++ "_" ++ toString t := by
        rw [← String.append_assoc, ← String.append_assoc]
    _ = "qa_" ++ toString h2 ++ "_" ++ toString t2 := he
    _ = "qa_" ++ (toString h2 ++ "_" ++ toString t2) := by
        rw [← String.append_assoc, ← String.append_assoc]

/-- C7 counterexample: the single generated variant is attempted under the
fresh identifier `variant_7_1`, not the canonical record's `qa_7_1`, and the
write does not succeed (the call passes an `answer` keyword that
`store_qa_embedding` does not accept, so it raises and is swallowed). -/
theorem C7_counterexample_fresh_variant_id :
    generate_and_store_variants envC7 =
      [⟨mk_variant_id 7 1, "How large is Syria?", true, false⟩] ∧
    (store_new_qa_pair envC7 "What is Syria?" [1]).qa_id = mk_qa_id 7 1 ∧
    mk_variant_id 7 1 ≠ mk_qa_id 7 1 :=
  ⟨rfl, rfl, mk_variant_id_ne_mk_qa_id 7 1 7 1⟩

theorem miss_path_fst_congr (env env' : Env)
    (hrl : env'.repoLookup = env.repoLookup) (hsr : env'.search = env.search)
    (hrc : env'.repoCreate = env.repoCreate) (hup : env'.qdrantUpsertOk = env.qdrantUpsertOk)
    (hhash : env'.hashOf = env.hashOf) (htime : env'.timeNow = env.timeNow)
    (n : String) (e : List ℚ) (sim : List Hit) (steps : List String)
    (g : Call (Option GeminiResp)) (c : Nat) :
    (miss_path env' n e sim steps g c).1 = (miss_path env n e sim steps g c).1 := by
  have hstore : store_new_qa_pair env' n e = store_new_qa_pair env n e := by
    unfold store_new_qa_pair
    rw [hrc, hsr, hup, hhash, htime]
  unfold miss_path
  cases g with
  | raises =>
    dsimp only
    rw [hrl]
  | ret go =>
    cases go with
    | none => rfl
    | some resp =>
      dsimp only
      rw [hstore]

theorem process_question_fst_congr (env env' : Env)
    (hemb : env'.embed = env.embed) (hsr : env'.search = env.search)
    (hrl : env'.repoLookup = env.repoLookup) (hweb : env'.webFetch = env.webFetch)
    (hgem : env'.gemini = env.gemini) (hrc : env'.repoCreate = env.repoCreate)
    (hup : env'.qdrantUpsertOk = env.qdrantUpsertOk) (hhash : env'.hashOf = env.hashOf)
    (htime : env'.timeNow = env.timeNow) (q : String) (ctx : Option String) :
    (process_question env' q ctx).1 = (process_question env q ctx).1 := by
  have hmp : ∀ (n : String) (e : List ℚ) (sim : List Hit) (steps : List String)
      (g : Call (Option GeminiResp)) (c : Nat),
      (miss_path env' n e sim steps g c).1 = (miss_path env n e sim steps g c).1 :=
    miss_path_fst_congr env env' hrl hsr hrc hup hhash htime
  unfold process_question
  rw [hemb]
  have heff : eff_context env' ctx = eff_context env ctx := by
    unfold eff_context
    rw [hweb]
  rw [heff, hgem, hrl]
  cases henv : env.embed with
  | none => rfl
  | some emb =>
    dsimp only
    by_cases hemp : emb.isEmpty = true
    · simp only [if_pos hemp]
    · simp only [if_neg hemp]
      rw [hsr]
      cases hsim : search_similar_questions env.search emb with
      | nil => exact hmp _ _ _ _ _ _
      | cons best rest =>
        dsimp only
        by_cases hq2 : best.similarity_score ≥ quality_threshold
        · simp only [if_pos hq2]
          cases env.repoLookup best.qa_id with
          | raises => rfl
          | ret o =>
            cases o with
            | some qa => rfl
            | none => exact hmp _ _ _ _ _ _
        · simp only [if_neg hq2]
          exact hmp _ _ _ _ _ _

/-- C7 amended: after persistence, each paraphrase variant with a truthy
embedding is *attempted* as a vector-index entry whose metadata sets
`is_variant = true` — but under a fresh `variant_…` identifier that is never
equal to any canonical `qa_…` identifier, and every attempt fails (the call
passes an `answer` keyword `store_qa_embedding` does not accept, raising a
`TypeError` that is swallowed), so no variant entry is indexed; failures in
this stage never affect the returned response. -/
theorem C7_amended_variant_indexing :
    (∀ (env : Env) (w : VariantWrite), w ∈ generate_and_store_variants env →
      w.is_variant = true ∧ w.succeeded = false ∧
      w.qa_id = mk_variant_id (env.hashOf w.question) env.timeNow ∧
      ∀ h t, w.qa_id ≠ mk_qa_id h t) ∧
    (∀ (env : Env) (q : String) (ctx : Option String) (vs : List String)
      (ve : String → Option (List ℚ)),
      (process_question { env with variants := vs, variantEmbed := ve } q ctx).1 =
        (process_question env q ctx).1) := by
  constructor
  · intro env w hw
    unfold generate_and_store_variants at hw
    rw [List.mem_filterMap] at hw
    obtain ⟨v, hv, hfv⟩ := hw
    cases hve : env.variantEmbed v with
    | none =>
      rw [hve] at hfv
      simp at hfv
    | some ve =>
      rw [hve] at hfv
      dsimp only at hfv
      by_cases hne : ve.isEmpty = true
      · rw [if_pos hne] at hfv
        simp at hfv
      · rw [if_neg hne] at hfv
        rw [invoke_with_answer_raises] at hfv
        have hw' : w = ⟨mk_variant_id (env.hashOf v) env.timeNow, v, true, false⟩ := by
          injection hfv with hx
          exact hx.symm
        subst hw'
        exact ⟨rfl, rfl, rfl, fun h t => mk_variant_id_ne_mk_qa_id _ _ _ _⟩
  · intro env q ctx vs ve
    exact process_question_fst_congr env { env with variants := vs, variantEmbed := ve }
      rfl rfl rfl rfl rfl rfl rfl rfl rfl q ctx

/-- Witness for C7's amended theorem at the concrete variant of `envC7`. -/
theorem C7_amended_variant_indexing_witness :
    (⟨mk_variant_id 7 1, "How large is Syria?", true, false⟩ : VariantWrite).succeeded
      = false ∧
    mk_variant_id 7 1 ≠ mk_qa_id 7 1 :=
  have h := C7_amended_variant_indexing.1 envC7
    ⟨mk_variant_id 7 1, "How large is Syria?", true, false⟩ (by decide)
  ⟨h.2.1, h.2.2.2 7 1⟩

-- Claim C8: empty-input validation.

theorem dropWhile_of_all (p : Char → Bool) (l : List Char) (h : l.all p = true) :
    l.dropWhile p = [] := by
  induction l with
  | nil => rfl
  | cons c r ih =>
    simp only [List.all_cons, Bool.and_eq_true] at h
    rw [List.dropWhile_cons, h.1]
    simpa using ih h.2

theorem normalize_all_space (q : String) (hq : q.data.all pyIsSpace = true) :
    normalize_question q = "?" := by
  have h2 : pyStrip q.data = [] := by
    unfold pyStrip
    rw [dropWhile_of_all pyIsSpace q.data hq]
    rfl
  show String.mk (normalizeChars q.data) = "?"
  unfold normalizeChars
  rw [h2]
  rfl

theorem miss_path_obs_embedCalled (env : Env) (n : String) (e : List ℚ)
    (sim : List Hit) (steps : List String) (g : Call (Option GeminiResp)) (c : Nat) :
    (miss_path env n e sim steps g c).2.embedCalled = true := by
  unfold miss_path
  repeat' split
  all_goals rfl

theorem process_question_embedCalled (env : Env) (q : String) (ctx : Option String) :
    (process_question env q ctx).2.embedCalled = true := by
  cases henv : env.embed with
  | none =>
    unfold process_question
    rw [henv]
  | some emb =>
    unfold process_question
    rw [henv]
    dsimp only
    repeat' split
    all_goals first
      | rfl
      | exact miss_path_obs_embedCalled _ _ _ _ _ _ _

/-- C8 counterexample: a whitespace-only input is not rejected — it is
normalized to `"?"`, the pipeline embeds and generates, and the request ends
in success rather than in any validation failure. -/
theorem C8_counterexample_whitespace_processed :
    normalize_question "   " = "?" ∧
    (process_question envC8 "   " none).1.status = "success" ∧
    (process_question envC8 "   " none).2.geminiInvoked = true := by
  exact ⟨rfl, rfl, rfl⟩

/-- C8 amended: an input that is empty or whitespace-only after trimming is
not a validation failure: normalization turns it into a bare `"?"`, the
pipeline still calls the embedding provider and proceeds like any other
request, and no result of `process_question` carries a validation-error
kind — the only error reasons are embedding, generation and internal
failures. -/
theorem C8_amended_empty_input_processed (env : Env) (q : String) (ctx : Option String)
    (hq : q.data.all pyIsSpace = true) :
    normalize_question q = "?" ∧
    (process_question env q ctx).2.embedCalled = true ∧
    (∀ r, (process_question env q ctx).1.reason = some r →
      r = "embedding_failure" ∨ r = "generation_failure" ∨ r = "internal_error") := by
  refine ⟨normalize_all_space q hq, process_question_embedCalled env q ctx, ?_⟩
  intro r hr
  rcases process_question_result_form env q ctx with ⟨a, s, c, st, h⟩ | ⟨r2, st, h, hr2⟩
  · rw [h] at hr
    simp [format_response] at hr
  · rw [h] at hr
    simp only [format_error] at hr
    injection hr with hx
    subst hx
    exact hr2

/-- Witness for C8's amended theorem at the whitespace input `"   "`. -/
theorem C8_amended_empty_input_processed_witness :
    normalize_question "   " = "?" ∧
    (process_question envC8 "   " none).2.embedCalled = true :=
  have h := C8_amended_empty_input_processed envC8 "   " none (by decide)
  ⟨h.1, h.2.1⟩
